import Mathlib

/-!
Verification of the expense-report generation core of the ReceiptScanner
repository, shallowly embedded in Lean.

JavaScript strings are modelled as `List Char`; JavaScript numbers are
modelled as exact rationals (`ℚ`), with `Option ℚ` used where the code can
produce `NaN` (`none` stands for `NaN`); IEEE rounding is out of scope.
Sources embedded here:
- `src/app/api/export-complete-report/route.ts` (namespace `ExportReport`),
- `src/lib/excel-generator.ts` (namespace `ExcelGenerator`),
- `src/lib/excel-processor.ts` (namespace `ExcelProcessor`),
- `src/components/ReceiptTable.tsx` (namespace `ReceiptTable`).
-/

set_option maxRecDepth 8000
set_option allowUnsafeReducibility true
attribute [semireducible] Rat.add Rat.sub Rat.mul Rat.inv Rat.ofScientific

abbrev Str := List Char

/-- The whitespace characters recognised by the embedded JavaScript `trim`
(ASCII subset; the claims only involve ASCII data). -/
def isJsWS (c : Char) : Bool :=
  c == ' ' || c == '\t' || c == '\n' || c == '\r'

/-- JavaScript `String.prototype.trim`: drop whitespace from both ends. -/
def jsTrim (s : Str) : Str :=
  ((s.dropWhile isJsWS).reverse.dropWhile isJsWS).reverse

/-- Numeric value of a (all-digit) character group, as produced by
JavaScript `parseInt(group, 10)` on a regex capture of digits. -/
def digitsVal (l : Str) : Nat :=
  l.foldl (fun a c => 10 * a + (c.toNat - 48)) 0

/-- Decimal digit characters of a natural number (JavaScript
`Number.prototype.toString` for naturals). -/
def natDigits (n : Nat) : Str :=
  Nat.toDigits 10 n

/-- JavaScript `Number.prototype.toString` for integers. -/
def intDigits (i : Int) : Str :=
  if i < 0 then '-' :: natDigits i.natAbs else natDigits i.toNat

/-- JavaScript `parseFloat` on strings over the alphabet `[0-9.-]` (the only
strings the repository ever feeds it, since every call site first strips the
input with `replace(/[^0-9.-]/g, '')`): an optional leading minus sign, then
the longest prefix of the form `Digits ('.' Digits?)? | '.' Digits`.
`none` models the `NaN` result. -/
def jsParseFloat (s : Str) : Option ℚ :=
  let core : Str → Option ℚ := fun t =>
    let ip := t.takeWhile Char.isDigit
    let rest := t.dropWhile Char.isDigit
    match rest with
    | '.' :: rest2 =>
        let fp := rest2.takeWhile Char.isDigit
        if ip = [] ∧ fp = [] then none
        else some (mkRat (digitsVal ip * 10 ^ fp.length + digitsVal fp) (10 ^ fp.length))
    | _ => if ip = [] then none else some (mkRat (digitsVal ip) 1)
  match s with
  | '-' :: t => (core t).map (fun q => -q)
  | _ => core s

/-- Embeds `amount.replace(/[^0-9.-]/g, '')`: keep digits, `'.'` and `'-'`
(note: every `'-'`, wherever it occurs, is kept). -/
def stripAmount (s : Str) : Str :=
  s.filter (fun c => c.isDigit || c == '.' || c == '-')

namespace ExcelGenerator

/-- Embeds `ExcelGenerator.parseAmount` (identical to `CSVProcessor.parseAmount`):
`if (!amount) return 0; const cleanAmount = amount.replace(/[^0-9.-]/g, '');
return parseFloat(cleanAmount) || 0;` -/
def parseAmount (amount : Option Str) : ℚ :=
  match amount with
  | none => 0
  | some s =>
      if s = [] then 0
      else (jsParseFloat (stripAmount s)).getD 0

end ExcelGenerator

/-- Modelled from the spec claim wording (for comparison with the source's
`parseAmount`): "strips every character except digits, `'.'`, and a leading
`'-'`, parses the remainder as floating point, returns 0 when the input is
empty/null or the result is not a valid number". -/
def stripAmountSpec (s : Str) : Str :=
  match s with
  | '-' :: rest => '-' :: rest.filter (fun c => c.isDigit || c == '.')
  | _ => s.filter (fun c => c.isDigit || c == '.')

/-- The claim's description of `parseAmount`, as a function (spec-side
definition used only to compare against the source's `parseAmount`). -/
def parseAmountSpec (amount : Option Str) : ℚ :=
  match amount with
  | none => 0
  | some s =>
      if s = [] then 0
      else (jsParseFloat (stripAmountSpec s)).getD 0

/-- A separator accepted by the date regexes: `[\/\-]`. -/
def isSep (c : Char) : Bool :=
  c == '/' || c == '-'

/-- The regex `/^(\d{1,2})[\/\-](\d{1,2})[\/\-](\d{2,4})$/` as a maximal-munch
parser returning `(month, day, rawYear)`.  Maximal munch agrees with the
backtracking regex here: shrinking a greedy digit group exposes another digit,
which can never match a separator or the end anchor, so backtracking never
succeeds where maximal munch fails. -/
def parseMDY (s : Str) : Option (Nat × Nat × Nat) :=
  let g1 := s.takeWhile Char.isDigit
  let r1 := s.dropWhile Char.isDigit
  if 1 ≤ g1.length ∧ g1.length ≤ 2 then
    match r1 with
    | c1 :: t1 =>
      if isSep c1 then
        let g2 := t1.takeWhile Char.isDigit
        let r2 := t1.dropWhile Char.isDigit
        if 1 ≤ g2.length ∧ g2.length ≤ 2 then
          match r2 with
          | c2 :: t2 =>
            if isSep c2 then
              let g3 := t2.takeWhile Char.isDigit
              let r3 := t2.dropWhile Char.isDigit
              if 2 ≤ g3.length ∧ g3.length ≤ 4 ∧ r3 = [] then
                some (digitsVal g1, digitsVal g2, digitsVal g3)
              else none
            else none
          | [] => none
        else none
      else none
    | [] => none
  else none

/-- The regex `/^(\d{4})-(\d{1,2})-(\d{1,2})/` (prefix match, no end anchor)
as a maximal-munch parser returning `(year, month, day)`; the day capture is
the first at-most-two digits of the final digit run. -/
def parseISODate (s : Str) : Option (Nat × Nat × Nat) :=
  let g1 := s.takeWhile Char.isDigit
  let r1 := s.dropWhile Char.isDigit
  if g1.length = 4 then
    match r1 with
    | c1 :: t1 =>
      if c1 = '-' then
        let g2 := t1.takeWhile Char.isDigit
        let r2 := t1.dropWhile Char.isDigit
        if 1 ≤ g2.length ∧ g2.length ≤ 2 then
          match r2 with
          | c2 :: t2 =>
            if c2 = '-' then
              let g3 := t2.takeWhile Char.isDigit
              if 1 ≤ g3.length then
                some (digitsVal g1, digitsVal g2, digitsVal (g3.take 2))
              else none
            else none
          | [] => none
        else none
      else none
    | [] => none
  else none

namespace ExcelGenerator

/-- The result of `ExcelGenerator.parseReceiptDate`: the JavaScript `Date`
object together with the `sortValue` property stored on it. -/
structure ParsedDate where
  year : Nat
  month : Nat
  day : Nat
  sortValue : Nat
deriving DecidableEq

/-- Embeds `ExcelGenerator.parseReceiptDate`: try `M/D/YY`-style (separator `/` or
`-`, two-digit years mapped to `2000 + yy`), then ISO `YYYY-MM-DD` as a
prefix; validate month 1–12, day 1–31, year 1900–2100; on failure return
`null` (never throw). -/
def parseReceiptDate (dateStr : Str) : Option ParsedDate :=
  if dateStr = [] then none
  else
    let cleaned := jsTrim dateStr
    let fromMDY : Option ParsedDate :=
      match parseMDY cleaned with
      | some (m, d, yRaw) =>
          let y := if yRaw < 100 then 2000 + yRaw else yRaw
          if 1 ≤ m ∧ m ≤ 12 ∧ 1 ≤ d ∧ d ≤ 31 ∧ 1900 ≤ y ∧ y ≤ 2100 then
            some ⟨y, m, d, y * 10000 + m * 100 + d⟩
          else none
      | none => none
    match fromMDY with
    | some p => some p
    | none =>
        match parseISODate cleaned with
        | some (y, m, d) =>
            if 1 ≤ m ∧ m ≤ 12 ∧ 1 ≤ d ∧ d ≤ 31 ∧ 1900 ≤ y ∧ y ≤ 2100 then
              some ⟨y, m, d, y * 10000 + m * 100 + d⟩
            else none
        | none => none

end ExcelGenerator

/-- JavaScript `String.prototype.split(/[\/\-]/)`. -/
def splitSeps : Str → List Str
  | [] => [[]]
  | c :: t =>
      if isSep c then [] :: splitSeps t
      else
        match splitSeps t with
        | h :: r => (c :: h) :: r
        | [] => [[c]]

/-- JavaScript `parseInt(s, 10)`: skip leading whitespace, optional sign,
then the maximal digit prefix; `none` models `NaN`. -/
def jsParseInt (s : Str) : Option Int :=
  let p : Str → Option Nat := fun t =>
    let ds := t.takeWhile Char.isDigit
    if ds = [] then none else some (digitsVal ds)
  let s1 := s.dropWhile isJsWS
  match s1 with
  | '-' :: t => (p t).map (fun n => -(n : Int))
  | '+' :: t => (p t).map (fun n => (n : Int))
  | _ => (p s1).map (fun n => (n : Int))

/-- Rendering of a `parseInt` result by template-string interpolation:
`NaN` prints as `"NaN"`. -/
def intOrNaNStr (o : Option Int) : Str :=
  match o with
  | none => "NaN".toList
  | some i => intDigits i

namespace ExcelGenerator

/-- Embeds `ExcelGenerator.normalizeDate`: split on `/` or `-`; with exactly three
parts, re-render the first two through `parseInt` (dropping leading zeros)
and rejoin with `/`; otherwise return the input unchanged. -/
def normalizeDate (s : Str) : Str :=
  if s = [] then s
  else
    match splitSeps s with
    | [p0, p1, p2] =>
        intOrNaNStr (jsParseInt p0) ++ '/' :: (intOrNaNStr (jsParseInt p1) ++ '/' :: p2)
    | _ => s

end ExcelGenerator

/-- JavaScript `o || dflt` on an optional string (`undefined` and `''` are
falsy). -/
def jsOrStrD (o : Option Str) (dflt : Str) : Str :=
  match o with
  | none => dflt
  | some s => if s = [] then dflt else s

/-- JavaScript `a || b || … || ''`: the first present, non-empty string. -/
def jsStrChain (l : List (Option Str)) : Str :=
  l.foldr
    (fun o acc =>
      match o with
      | none => acc
      | some s => if s = [] then acc else s)
    []

/-- Embeds `s.toLowerCase()` (ASCII, which covers all keywords involved). -/
def lowerStr (s : Str) : Str :=
  s.map Char.toLower

/-- JavaScript `hay.includes(needle)` (written needle-first): `needle` is a
contiguous substring of `hay`. -/
def isSubstr (needle : Str) : Str → Bool
  | [] => needle.isPrefixOf []
  | c :: t => needle.isPrefixOf (c :: t) || isSubstr needle t

/-- Chronological order on optional sort keys, as induced by the receipt
comparators of the repository: parsed dates ascend, and an absent/unparsable
(`none`) key sorts after every parsed one. -/
def keyLE {a : Type} [LE a] : Option a → Option a → Prop
  | none, none => True
  | some _, none => True
  | none, some _ => False
  | some x, some y => x ≤ y

instance keyLE.instDecidableRel {a : Type} [LE a] [DecidableEq a]
    [h : ∀ x y : a, Decidable (x ≤ y)] : DecidableRel (keyLE (a := a))
  | none, none => isTrue trivial
  | some _, none => isTrue trivial
  | none, some _ => isFalse id
  | some x, some y => h x y

instance keyLE.instIsTrans {a : Type} [Preorder a] : IsTrans (Option a) keyLE :=
  ⟨by
    intro x y z h1 h2
    match x, y, z with
    | none, none, none => exact trivial
    | none, none, some _ => exact h2.elim
    | none, some _, none => exact trivial
    | none, some _, some _ => exact h1.elim
    | some _, none, none => exact trivial
    | some _, none, some _ => exact h2.elim
    | some _, some _, none => exact trivial
    | some x, some y, some z => exact le_trans h1 h2⟩

instance keyLE.instIsTotal {a : Type} [LinearOrder a] : IsTotal (Option a) keyLE :=
  ⟨by
    intro x y
    match x, y with
    | none, none => exact Or.inl trivial
    | some _, none => exact Or.inl trivial
    | none, some _ => exact Or.inr trivial
    | some x, some y => exact le_total x y⟩

/-- One receipt of the export request body.  The fields are those read by
`export-complete-report/route.ts` (its `ReceiptData.data`) together with
`description`, which is part of the extracted-receipt payload
(`ExtractedReceiptData`) the client sends but which the route never reads. -/
structure ReceiptData where
  date : Option Str
  vendor : Option Str
  merchant : Option Str
  store : Option Str
  location : Option Str
  category : Option Str
  total : Option Str
  description : Option Str
deriving DecidableEq

/-- One mileage entry of the export request body (`MileageEntry` in
`route.ts`, together with the further `MileageEntryData` fields the client
stores and sends but the route never reads). -/
structure MileageEntry where
  date : Option Str
  startAddress : Option Str
  endAddress : Option Str
  businessPurpose : Option Str
  mileage : Option ℚ
  reimbursableDistance : Option ℚ
  reimbursableAmount : Option ℚ
  roundTrip : Option Bool
  calculatedDistance : Option ℚ
  personalCommute : Option ℚ
deriving DecidableEq

/-- The twelve expense categories of the report grid. -/
inductive Cat
  | hotel
  | meals
  | entertainment
  | transport
  | computer
  | cellPhone
  | gas
  | copies
  | dues
  | postage
  | office
  | misc
deriving DecidableEq

/-- Spreadsheet column (1-based) of each category in the expense sheet of
`route.ts`: G=7 Hotel/Motel … R=18 Misc. -/
def catCol : Cat → Nat
  | .hotel => 7
  | .meals => 8
  | .entertainment => 9
  | .transport => 10
  | .computer => 11
  | .cellPhone => 12
  | .gas => 13
  | .copies => 14
  | .dues => 15
  | .postage => 16
  | .office => 17
  | .misc => 18

/-- A spreadsheet cell value: unset, a (finite) number, the `NaN` number, or
a string. -/
inductive CellValue
  | blank
  | numv (q : ℚ)
  | nanv
  | strv (s : Str)
deriving DecidableEq

/-- Write a JavaScript number (possibly `NaN`) into a cell. -/
def jnumCell (o : Option ℚ) : CellValue :=
  match o with
  | some q => CellValue.numv q
  | none => CellValue.nanv

/-- Cell for an optional string field (`undefined` leaves the cell unset). -/
def optStrCell (o : Option Str) : CellValue :=
  match o with
  | some s => CellValue.strv s
  | none => CellValue.blank

/-- Cell for an optional number field (`undefined` leaves the cell unset). -/
def optNumCell (o : Option ℚ) : CellValue :=
  match o with
  | some q => CellValue.numv q
  | none => CellValue.blank

/-- JavaScript `+` on possibly-`NaN` numbers. -/
def jadd : Option ℚ → Option ℚ → Option ℚ
  | some a, some b => some (a + b)
  | _, _ => none

/-- JavaScript falsiness of a number: `0` and `NaN` are falsy. -/
def jfalsy : Option ℚ → Bool
  | none => true
  | some q => q == 0

/-- Numeric reading of a cell for summing up a row or column; non-numeric
cells count as zero. -/
def cellQ : CellValue → ℚ
  | CellValue.numv q => q
  | _ => 0

namespace ExportReport

/-- Days since the Unix epoch of the civil date `(y, m, d)` for `m ∈ 1..12`
(Gregorian, proleptic) — the standard days-from-civil computation. -/
def daysFromCivil (y m d : Int) : Int :=
  let y2 := if m ≤ 2 then y - 1 else y
  let era := y2.fdiv 400
  let yoe := y2 - era * 400
  let mp := (m + 9).emod 12
  let doy := (153 * mp + 2).fdiv 5 + d - 1
  let doe := yoe * 365 + yoe.fdiv 4 - yoe.fdiv 100 + doy
  era * 146097 + doe - 719468

/-- Day index of JavaScript `new Date(y, m - 1, d, 12, 0, 0)`: the `Date`
constructor first normalises an out-of-range month into the year and an
out-of-range day into the month.  The fixed noon hour does not affect the
ordering of `getTime()` values, so days are a faithful comparison key. -/
def jsDateDays (y m d : Nat) : Int :=
  let mm : Int := (m : Int) - 1
  let y2 : Int := (y : Int) + mm.fdiv 12
  let m2 : Int := mm.emod 12 + 1
  daysFromCivil y2 m2 1 + ((d : Int) - 1)

/-- Sort key of the receipt-sorting comparator in `route.ts`: the inline
`parseDate` (regex `M/D/YY` family only, two-digit year mapped to
`2000 + yy`, no range validation) composed with `getTime()`; `none` for an
absent/empty/unparsable date, which the comparator sends to the end. -/
def routeDateKey (date : Option Str) : Option Int :=
  let s := jsOrStrD date []
  if s = [] then none
  else
    match parseMDY (jsTrim s) with
    | some (m, d, yRaw) =>
        let y := if yRaw < 100 then 2000 + yRaw else yRaw
        some (jsDateDays y m d)
    | none => none

/-- The receipt comparator of `route.ts` as the relation
`comparator(a, b) ≤ 0`. -/
abbrev leRoute (a b : ReceiptData) : Prop :=
  keyLE (routeDateKey a.date) (routeDateKey b.date)

instance : IsTrans ReceiptData leRoute :=
  ⟨fun _ _ _ h1 h2 => Trans.trans (r := keyLE) (s := keyLE) h1 h2⟩

instance : IsTotal ReceiptData leRoute :=
  ⟨fun a b => IsTotal.total (r := keyLE) (routeDateKey a.date) (routeDateKey b.date)⟩

/-- Embeds `[...receipts].sort(comparator)`: `Array.prototype.sort` is stable, and
for a comparator induced by a total preorder on keys a stable sorted
permutation is unique, so every stable sorting algorithm computes the same
list; it is modelled by `List.insertionSort`, which is stable and reduces in
the kernel. -/
def sortRoute (rs : List ReceiptData) : List ReceiptData :=
  List.insertionSort leRoute rs

/-- The inline `formatDate` of `route.ts`: reformat an `M/D/YY`-family date
to zero-padded `MM/DD/YYYY`; otherwise return the input unchanged (an absent
date renders as `''`). -/
def padZero2 (n : Nat) : Str :=
  let ds := natDigits n
  if 2 ≤ ds.length then ds else '0' :: ds

/-- Embeds `formatDate(receipt.data.date)` in `route.ts`. -/
def routeFormatDate (date : Option Str) : Str :=
  match date with
  | none => []
  | some s =>
      if s = [] then []
      else
        match parseMDY (jsTrim s) with
        | some (m, d, yRaw) =>
            let y := if yRaw < 100 then 2000 + yRaw else yRaw
            padZero2 m ++ '/' :: (padZero2 d ++ '/' :: natDigits y)
        | none => s

/-- The per-row amount in `route.ts`:
`parseFloat(receipt.data.total?.replace(/[^\d.-]/g, '') || '0')`.
Note there is no `|| 0` after `parseFloat` here, so the result can be `NaN`
(modelled as `none`). -/
def rowAmount (total : Option Str) : Option ℚ :=
  let s :=
    match total with
    | none => "0".toList
    | some s0 =>
        let st := stripAmount s0
        if st = [] then "0".toList else st
  jsParseFloat s

/-- The category if-chain of `route.ts` (lines 261–299): first match wins;
keyword containment on the lower-cased category, with the vendor name as a
secondary signal for meals. -/
def classifyReceipt (r : ReceiptData) : Cat :=
  let category := lowerStr (jsOrStrD r.category [])
  let inc : Str → Bool := fun kw => isSubstr kw category
  let vendorRestaurant : Bool :=
    match r.vendor with
    | some v => isSubstr "restaurant".toList (lowerStr v)
    | none => false
  if inc "hotel".toList || inc "lodging".toList || inc "motel".toList then Cat.hotel
  else if inc "food".toList || inc "meal".toList || inc "restaurant".toList
      || vendorRestaurant then Cat.meals
  else if inc "entertainment".toList then Cat.entertainment
  else if inc "transport".toList || inc "uber".toList || inc "lyft".toList
      || inc "taxi".toList || inc "air".toList || inc "rail".toList then Cat.transport
  else if inc "computer".toList || inc "supplies".toList then Cat.computer
  else if inc "cell".toList || inc "phone".toList then Cat.cellPhone
  else if inc "gas".toList || inc "mileage".toList || inc "fuel".toList then Cat.gas
  else if inc "copies".toList || inc "printing".toList then Cat.copies
  else if inc "dues".toList || inc "membership".toList then Cat.dues
  else if inc "postage".toList || inc "shipping".toList then Cat.postage
  else if inc "office".toList then Cat.office
  else Cat.misc

/-- One populated data row (columns 1–19) of rows 10–37 in `route.ts`. -/
def renderRow (r : ReceiptData) : List CellValue :=
  let a := rowAmount r.total
  let catIdx := catCol (classifyReceipt r)
  [CellValue.strv (routeFormatDate r.date),
   CellValue.strv (jsStrChain [r.vendor, r.merchant, r.store, r.location]),
   CellValue.blank,
   CellValue.strv (jsOrStrD r.category "Business Expense".toList),
   CellValue.blank, CellValue.blank]
  ++ (List.range' 7 12).map (fun i => if i = catIdx then jnumCell a else CellValue.blank)
  ++ [jnumCell a]

/-- One padding row (columns 1–19): every cell set to `''` except the totals
column, which is set to `0`. -/
def paddingRow : List CellValue :=
  List.replicate 18 (CellValue.strv []) ++ [CellValue.numv 0]

/-- One step of the totals accumulation in the receipt loop of `route.ts`:
add the row amount to the selected category total and to the grand total. -/
def totalsStep (acc : (Cat → Option ℚ) × Option ℚ) (r : ReceiptData) :
    (Cat → Option ℚ) × Option ℚ :=
  let a := rowAmount r.total
  let c := classifyReceipt r
  (fun c2 => if c2 = c then jadd (acc.1 c2) a else acc.1 c2, jadd acc.2 a)

/-- The running per-category totals and grand total accumulated over the
placed receipts (the `hotelTotal … miscTotal, grandTotal` variables). -/
def accumTotals (l : List ReceiptData) : (Cat → Option ℚ) × Option ℚ :=
  l.foldl totalsStep (fun _ => some 0, some 0)

/-- Embeds the reduction `mileageEntries.reduce((sum, entry) => sum + (entry.reimbursableAmount || 0), 0)`. -/
def mileageTotal (m : List MileageEntry) : ℚ :=
  (m.map (fun e => e.reimbursableAmount.getD 0)).sum

/-- A cell of the TOTALS row: `value = total || ''` — the empty string when
the total is `0` (or `NaN`), the number otherwise. -/
def totalCell (t : Option ℚ) : CellValue :=
  if jfalsy t then CellValue.strv [] else jnumCell t

/-- One mileage-detail row (columns 1–6). -/
def renderMileageRow (e : MileageEntry) : List CellValue :=
  [optStrCell e.date, optStrCell e.startAddress, optStrCell e.endAddress,
   optStrCell e.businessPurpose, optNumCell e.reimbursableDistance,
   optNumCell e.reimbursableAmount]

/-- The Mileage Details sheet: entry rows plus the totals of
`reimbursableDistance` and the mileage reimbursement total. -/
structure MileageSheet where
  rows : List (List CellValue)
  totalMiles : ℚ
  totalAmount : ℚ
deriving DecidableEq

/-- The observable output of the export route: the populated data rows
(rows 10–37), the TOTALS row (row 39), the two summary cells referencing the
grand total (rows 54 and 57, column 19), and the optional mileage sheet. -/
structure Workbook where
  employeeCell : Str
  expenseDataRows : List (List CellValue)
  totalsRow : List CellValue
  totalExpensesCell : CellValue
  balanceDueCell : CellValue
  mileageSheet : Option MileageSheet
deriving DecidableEq

/-- The mileage sheet built when at least one mileage entry is present. -/
def buildMileageSheet (m : List MileageEntry) (mt : ℚ) : MileageSheet :=
  { rows := m.map renderMileageRow
  , totalMiles := (m.map (fun e => e.reimbursableDistance.getD 0)).sum
  , totalAmount := mt }

/-- The workbook produced by `POST /api/export-complete-report` after the
employee-name check: sort, place the first 28 receipts, pad to 28 rows,
accumulate totals, override the gas total with the mileage total when
mileage entries exist, and emit the TOTALS row and summary cells. -/
def buildWorkbook (employeeName : Str) (receipts : List ReceiptData)
    (mileageEntries : List MileageEntry) : Workbook :=
  let placed := (sortRoute receipts).take 28
  let acc := accumTotals placed
  let catT := acc.1
  let grand := acc.2
  let mt := mileageTotal mileageEntries
  let gasT := if mileageEntries.isEmpty then catT Cat.gas else some mt
  { employeeCell := employeeName
  , expenseDataRows := placed.map renderRow ++ List.replicate (28 - placed.length) paddingRow
  , totalsRow :=
      [CellValue.blank, CellValue.blank, CellValue.blank, CellValue.blank, CellValue.blank,
       CellValue.strv "TOTALS".toList,
       totalCell (catT Cat.hotel), totalCell (catT Cat.meals),
       totalCell (catT Cat.entertainment), totalCell (catT Cat.transport),
       totalCell (catT Cat.computer), totalCell (catT Cat.cellPhone),
       totalCell gasT, totalCell (catT Cat.copies), totalCell (catT Cat.dues),
       totalCell (catT Cat.postage), totalCell (catT Cat.office), totalCell (catT Cat.misc),
       jnumCell (jadd grand (some mt))]
  , totalExpensesCell := jnumCell (jadd grand (some mt))
  , balanceDueCell := jnumCell (jadd grand (some mt))
  , mileageSheet :=
      if mileageEntries.isEmpty then none else some (buildMileageSheet mileageEntries mt) }

/-- The full route handler: reject a missing or empty employee name with a
400 error (`none`), otherwise generate the workbook. -/
def exportCompleteReport (employeeName : Option Str) (receipts : List ReceiptData)
    (mileageEntries : List MileageEntry) : Option Workbook :=
  match employeeName with
  | none => none
  | some n => if n = [] then none else some (buildWorkbook n receipts mileageEntries)

end ExportReport

namespace ExcelProcessor

/-- The capacity check of `ExcelProcessor.processWithWorkbook` (lines 87–94):
if the sorted receipts exceed `MAX_RECEIPTS = 28`, emit a `console.warn`
capacity warning and truncate to the first 28 (`splice`).  The boolean
records whether the warning was emitted. -/
def capReceipts (sorted : List ReceiptData) : List ReceiptData × Bool :=
  if sorted.length > 28 then (sorted.take 28, true) else (sorted, false)

end ExcelProcessor

namespace ExcelGenerator

/-- The Purpose cell (column 3) written by
`ExcelGenerator.generateExpenseReport`:
`row.getCell(3).value = receipt.data.description || ''`. -/
def purposeCellValue (description : Option Str) : CellValue :=
  CellValue.strv (jsOrStrD description [])

/-- The amount written by `ExcelGenerator.generateExpenseReport` for one
receipt row: `this.parseAmount(receipt.data.total)`. -/
def generatorRowAmount (r : ReceiptData) : ℚ :=
  parseAmount r.total

/-- The sort key used by `ExcelGenerator.sortReceiptsByDate`: normalise the
date, parse it, and read the stored `sortValue` (`year*10000+month*100+day`);
`none` when parsing fails.  (`sortValue || 0` never takes the `0` branch
since a successful parse has `sortValue ≥ 1900*10000`.) -/
def receiptSortKey (date : Option Str) : Option Nat :=
  (parseReceiptDate (normalizeDate (jsOrStrD date []))).map ParsedDate.sortValue

/-- The comparator of `ExcelGenerator.sortReceiptsByDate` as the relation
`comparator(a, b) ≤ 0`: unparsable dates to the end, otherwise compare
`sortValue`s. -/
abbrev leGen (a b : ReceiptData) : Prop :=
  keyLE (receiptSortKey a.date) (receiptSortKey b.date)

instance : IsTrans ReceiptData leGen :=
  ⟨fun _ _ _ h1 h2 => Trans.trans (r := keyLE) (s := keyLE) h1 h2⟩

instance : IsTotal ReceiptData leGen :=
  ⟨fun a b => IsTotal.total (r := keyLE) (receiptSortKey a.date) (receiptSortKey b.date)⟩

/-- Embeds `ExcelGenerator.sortReceiptsByDate`: decorate each receipt with its
parsed date and sort stably by it (`Array.prototype.sort` is stable).  The
decoration only caches the comparator key, so the sort is modelled directly
on the receipts with the key-based comparator; as a stable sort by a total
preorder it is computed by `List.insertionSort` (the stable sorted
permutation of a list is unique). -/
def sortReceiptsByDate (rs : List ReceiptData) : List ReceiptData :=
  List.insertionSort leGen rs

end ExcelGenerator

namespace ReceiptTable

/-- Embeds `const IRS_MILEAGE_RATE = 0.67`. -/
def IRS_MILEAGE_RATE : ℚ := mkRat 67 100

/-- The three computed fields of `handleCalculateDistance`. -/
structure Reimbursement where
  totalDistance : ℚ
  reimbursableDistance : ℚ
  reimbursableAmount : ℚ
deriving DecidableEq

/-- The reimbursement arithmetic of `handleCalculateDistance`
(`ReceiptTable.tsx` lines 321–323), with the mileage rate abstracted as a
parameter (the component instantiates it with `IRS_MILEAGE_RATE`). -/
def computeReimbursement (distance : ℚ) (roundTrip : Bool)
    (personalCommute rate : ℚ) : Reimbursement :=
  let totalDistance := distance * (if roundTrip then 2 else 1)
  let rd := max 0 (totalDistance - personalCommute)
  { totalDistance := totalDistance
  , reimbursableDistance := rd
  , reimbursableAmount := rd * rate }

/-- Embeds `handleCalculateDistance` as called in the component: the rate is the
constant `IRS_MILEAGE_RATE`. -/
def handleCalculateDistanceCalc (distance : ℚ) (roundTrip : Bool)
    (personalCommute : ℚ) : Reimbursement :=
  computeReimbursement distance roundTrip personalCommute IRS_MILEAGE_RATE

end ReceiptTable

/-- The sum of the twelve category-total cells (columns 7–18) of a TOTALS
row. -/
def catCellSum (row : List CellValue) : ℚ :=
  (((row.drop 6).take 12).map cellQ).sum

/-- The numeric value of the grand-total cell (column 19) of a row. -/
def grandCellQ (row : List CellValue) : ℚ :=
  cellQ (row.getD 18 CellValue.blank)

/-- The GAS/MILEAGE column cell (column 13) of a row. -/
def gasCellOf (row : List CellValue) : CellValue :=
  row.getD 12 CellValue.blank

/-- The sum of the row-total cells (column 19) over a block of rows. -/
def rowTotalsSum (rows : List (List CellValue)) : ℚ :=
  (rows.map (fun row => cellQ (row.getD 18 CellValue.blank))).sum

/-- The (finite) amount contribution of one receipt (`NaN` read as 0). -/
def amountQ (r : ReceiptData) : ℚ :=
  (ExportReport.rowAmount r.total).getD 0

/-- The total amount classified into category `c` over a receipt list. -/
def catSumQ (c : Cat) (l : List ReceiptData) : ℚ :=
  ((l.filter (fun r => ExportReport.classifyReceipt r = c)).map amountQ).sum

/-- The total amount over a receipt list. -/
def amountSumQ (l : List ReceiptData) : ℚ :=
  (l.map amountQ).sum

/-- The per-category running total as a JavaScript number (possibly `NaN`). -/
def catSumJ (c : Cat) (l : List ReceiptData) : Option ℚ :=
  l.foldr
    (fun r s =>
      if ExportReport.classifyReceipt r = c then jadd (ExportReport.rowAmount r.total) s
      else s)
    (some 0)

/-- The grand running total as a JavaScript number (possibly `NaN`). -/
def amountSumJ (l : List ReceiptData) : Option ℚ :=
  l.foldr (fun r s => jadd (ExportReport.rowAmount r.total) s) (some 0)

/-- The twelve categories in column order. -/
def allCats : List Cat :=
  [Cat.hotel, Cat.meals, Cat.entertainment, Cat.transport, Cat.computer, Cat.cellPhone,
   Cat.gas, Cat.copies, Cat.dues, Cat.postage, Cat.office, Cat.misc]

/-- The mileage-entry fields the export route reads. -/
def mileageProj (e : MileageEntry) :
    Option Str × Option Str × Option Str × Option Str × Option ℚ × Option ℚ :=
  (e.date, e.startAddress, e.endAddress, e.businessPurpose,
   e.reimbursableDistance, e.reimbursableAmount)

/-- A receipt with every field absent. -/
def emptyReceipt : ReceiptData :=
  ⟨none, none, none, none, none, none, none, none⟩

/-- A receipt whose category reads "Office Supplies". -/
def officeReceipt : ReceiptData :=
  { emptyReceipt with category := some "Office Supplies".toList }

/-- A hotel receipt carrying a description. -/
def hotelStayReceipt : ReceiptData :=
  { emptyReceipt with category := some "hotel".toList, description := some "stay".toList }

/-- A gas-category receipt for $10. -/
def gasReceipt : ReceiptData :=
  { emptyReceipt with category := some "gas".toList, total := some "10".toList }

/-- A mileage entry with every field absent. -/
def emptyMileage : MileageEntry :=
  ⟨none, none, none, none, none, none, none, none, none, none⟩

/-- A mileage entry with a $5 reimbursable amount. -/
def mileage5 : MileageEntry :=
  { emptyMileage with reimbursableAmount := some 5, reimbursableDistance := some 10 }

/-- A mileage entry whose reimbursable amount is 0. -/
def zeroMileage : MileageEntry :=
  { emptyMileage with reimbursableAmount := some 0 }

/-- A mileage entry as saved after a round-trip distance calculation. -/
def mileageRoundTrip : MileageEntry :=
  { emptyMileage with
      date := some "1/5/24".toList
    , reimbursableDistance := some 180
    , reimbursableAmount := some 90
    , roundTrip := some true
    , calculatedDistance := some 200
    , personalCommute := some 20 }

/-- The same trip with the fields the route never reads changed. -/
def mileageOtherFields : MileageEntry :=
  { emptyMileage with
      date := some "1/5/24".toList
    , reimbursableDistance := some 180
    , reimbursableAmount := some 90
    , roundTrip := some false
    , calculatedDistance := some 55
    , personalCommute := some 7
    , mileage := some 99 }

/-- A receipt dated 1/5/24. -/
def receiptJan5 : ReceiptData :=
  { emptyReceipt with date := some "1/5/24".toList }

/-- An undated receipt from merchant "A". -/
def undatedA : ReceiptData :=
  { emptyReceipt with merchant := some "A".toList }

/-- An undated receipt from merchant "B". -/
def undatedB : ReceiptData :=
  { emptyReceipt with merchant := some "B".toList }

/-- Twenty-nine empty receipts, to exercise the 28-row capacity cap. -/
def receipts29 : List ReceiptData :=
  List.replicate 29 emptyReceipt



/-! ## Claim theorems -/

/-- C3: the claim (and the spec) require that classifying the category text
"Office Supplies" selects the OFFICE SUPPLIES column (17), with rule 5
scoped so that it does not swallow it; the code instead matches rule 5's
naive substring check `category.includes('supplies')` first and places the
amount in the COMPUTER SUPPLIES column (11). -/
theorem officeSupplies_classified_computer :
    ExportReport.classifyReceipt officeReceipt = Cat.computer ∧
    catCol (ExportReport.classifyReceipt officeReceipt) = 11 ∧
    Cat.computer ≠ Cat.office ∧ catCol Cat.office = 17 := by
  refine ⟨by decide, by decide, by decide, by decide⟩

/-- C9: the mileage reimbursement computation satisfies
`totalDistance = distance * (roundTrip ? 2 : 1)`,
`reimbursableDistance = max(0, totalDistance - personalCommute)` and
`reimbursableAmount = reimbursableDistance * rate`; in particular
`(100, true, 20, 0.5)` yields `(200, 180, 90)`; the component instantiates
the rate with `IRS_MILEAGE_RATE = 0.67`. -/
theorem computeReimbursement_spec :
    (∀ (d : ℚ) (rt : Bool) (pc rate : ℚ),
      (ReceiptTable.computeReimbursement d rt pc rate).totalDistance =
        d * (if rt then 2 else 1) ∧
      (ReceiptTable.computeReimbursement d rt pc rate).reimbursableDistance =
        max 0 (d * (if rt then 2 else 1) - pc) ∧
      (ReceiptTable.computeReimbursement d rt pc rate).reimbursableAmount =
        max 0 (d * (if rt then 2 else 1) - pc) * rate) ∧
    ReceiptTable.computeReimbursement 100 true 20 (mkRat 1 2) =
      { totalDistance := 200, reimbursableDistance := 180, reimbursableAmount := 90 } ∧
    (∀ (d : ℚ) (rt : Bool) (pc : ℚ),
      ReceiptTable.handleCalculateDistanceCalc d rt pc =
        ReceiptTable.computeReimbursement d rt pc (mkRat 67 100)) := by
  refine ⟨fun d rt pc rate => ⟨rfl, rfl, rfl⟩, by decide, fun d rt pc => rfl⟩

/-- C6 (counterexample): a receipt whose category is "hotel" and whose
description is "stay" gets "hotel" — not its description — in the Purpose
cell of its data row, refuting the claim that the Purpose cell holds the
record's description. -/
theorem purpose_cell_not_description :
    ¬ ((ExportReport.renderRow hotelStayReceipt).getD 3 CellValue.blank =
        CellValue.strv (jsOrStrD hotelStayReceipt.description "Business Expense".toList)) := by
  decide

/-- C6 (amended): in `route.ts` the Purpose cell (column 4) of a data row
holds the record's category text, with the default label "Business Expense"
substituted when the category is absent or empty — the description is never
read; the Location cell holds the first non-empty of
vendor/merchant/store/location and the Date cell the formatted date.  (The
parallel `ExcelGenerator` implementation writes the description into its
Purpose cell with default `''`, not "Business Expense".) -/
theorem purpose_cell_category_default :
    ∀ r : ReceiptData,
      (ExportReport.renderRow r).getD 3 CellValue.blank =
        CellValue.strv (jsOrStrD r.category "Business Expense".toList) ∧
      (ExportReport.renderRow r).getD 1 CellValue.blank =
        CellValue.strv (jsStrChain [r.vendor, r.merchant, r.store, r.location]) ∧
      (ExportReport.renderRow r).getD 0 CellValue.blank =
        CellValue.strv (ExportReport.routeFormatDate r.date) ∧
      ExcelGenerator.purposeCellValue r.description =
        CellValue.strv (jsOrStrD r.description []) := by
  intro r
  exact ⟨rfl, rfl, rfl, rfl⟩

/-- C8 (counterexample): `parseAmount` keeps every `'-'` (the regex class is
`[^0-9.-]`), not only a leading one; on `"3-4"` the code parses the prefix
`3` of `"3-4"`, while the claim's described algorithm would strip the inner
`'-'` and parse `34`. -/
theorem parseAmount_keeps_inner_minus :
    ¬ (ExcelGenerator.parseAmount (some "3-4".toList) =
        parseAmountSpec (some "3-4".toList)) := by
  decide

/-- C8 (amended): `parseAmount` strips every character except digits, `'.'`
and `'-'` (wherever the `'-'` occurs), parses the longest valid
floating-point prefix of the result, and returns exactly 0 when the input is
absent or empty or when that parse fails; consequently a receipt whose
amount is unparsable contributes the amount 0 to its row in the
`ExcelGenerator` sheet (and the generation never fails: the function is
total). -/
theorem parseAmount_behaviour :
    ExcelGenerator.parseAmount none = 0 ∧
    ExcelGenerator.parseAmount (some []) = 0 ∧
    (∀ s : Str, jsParseFloat (stripAmount s) = none →
      ExcelGenerator.parseAmount (some s) = 0) ∧
    (∀ (s : Str) (q : ℚ), jsParseFloat (stripAmount s) = some q →
      ExcelGenerator.parseAmount (some s) = q) ∧
    (∀ r : ReceiptData, jsParseFloat (stripAmount (r.total.getD [])) = none →
      ExcelGenerator.generatorRowAmount r = 0) := by
  refine ⟨rfl, rfl, ?_, ?_, ?_⟩
  · intro s h
    unfold ExcelGenerator.parseAmount
    by_cases hs : s = [] <;> simp [hs, h]
  · intro s q h
    have hs : s ≠ [] := by
      intro hs
      rw [hs] at h
      simp [stripAmount, jsParseFloat] at h
    unfold ExcelGenerator.parseAmount
    simp [hs, h]
  · intro r h
    unfold ExcelGenerator.generatorRowAmount ExcelGenerator.parseAmount
    match hr : r.total with
    | none => rfl
    | some s =>
        rw [hr] at h
        by_cases hs : s = [] <;> simp_all

/-- C8 (witness). -/
theorem parseAmount_behaviour_witness :
    jsParseFloat (stripAmount "abc".toList) = none ∧
    ExcelGenerator.parseAmount (some "abc".toList) = 0 :=
  ⟨by decide, parseAmount_behaviour.2.2.1 "abc".toList (by decide)⟩

/-- C2 (counterexample): with one mileage entry whose reimbursable amount is
0, the GAS total cell holds the empty string `''` (`gasTotal || ''`), not
the number 0 — so the cell does not hold "exactly the total reimbursable
amount" for every call with at least one mileage entry. -/
theorem gas_total_zero_renders_empty :
    ¬ (gasCellOf (ExportReport.buildWorkbook "E".toList [] [zeroMileage]).totalsRow =
        CellValue.numv (ExportReport.mileageTotal [zeroMileage])) := by
  decide

/-- C2 (amended): for every generation call with at least one mileage entry,
the GAS column total cell holds the total reimbursable amount across all
mileage entries when that total is non-zero and the empty string when it is
zero; it replaces (does not add to) the gas-category receipt sum — the cell
is independent of the receipts — and the data rows 10–37 never contain
mileage amounts: they are independent of the mileage entries. -/
theorem gas_total_override :
    ∀ (name : Str) (rs : List ReceiptData) (m : List MileageEntry), m ≠ [] →
      gasCellOf (ExportReport.buildWorkbook name rs m).totalsRow =
        (if ExportReport.mileageTotal m = 0 then CellValue.strv []
         else CellValue.numv (ExportReport.mileageTotal m)) ∧
      gasCellOf (ExportReport.buildWorkbook name rs m).totalsRow =
        gasCellOf (ExportReport.buildWorkbook name [] m).totalsRow ∧
      (ExportReport.buildWorkbook name rs m).expenseDataRows =
        (ExportReport.buildWorkbook name rs []).expenseDataRows := by
  intro name rs m hm
  have hne : m.isEmpty = false := by simpa using hm
  refine ⟨?_, ?_, rfl⟩
  · simp only [ExportReport.buildWorkbook, hne, Bool.false_eq_true, if_false, gasCellOf]
    show ExportReport.totalCell (some (ExportReport.mileageTotal m)) = _
    unfold ExportReport.totalCell jfalsy jnumCell
    by_cases h0 : ExportReport.mileageTotal m = 0
    · simp [h0]
    · simp [h0]
  · simp only [ExportReport.buildWorkbook, hne, Bool.false_eq_true, if_false, gasCellOf]
    rfl

/-- C2 (witness). -/
theorem gas_total_override_witness :
    gasCellOf (ExportReport.buildWorkbook "E".toList [gasReceipt] [mileage5]).totalsRow =
      (if ExportReport.mileageTotal [mileage5] = 0 then CellValue.strv []
       else CellValue.numv (ExportReport.mileageTotal [mileage5])) ∧
    gasCellOf (ExportReport.buildWorkbook "E".toList [gasReceipt] [mileage5]).totalsRow =
      gasCellOf (ExportReport.buildWorkbook "E".toList [] [mileage5]).totalsRow ∧
    (ExportReport.buildWorkbook "E".toList [gasReceipt] [mileage5]).expenseDataRows =
      (ExportReport.buildWorkbook "E".toList [gasReceipt] []).expenseDataRows :=
  gas_total_override "E".toList [gasReceipt] [mileage5] (by decide)

/-- C10: the export route treats the supplied `reimbursableAmount` and
`reimbursableDistance` as authoritative: the generated workbook depends on a
mileage entry only through its date, addresses, purpose,
`reimbursableDistance` and `reimbursableAmount` (never `calculatedDistance`,
`personalCommute`, `roundTrip`, `mileage`, or any rate), and the mileage
sheet totals are the sums of the supplied values with missing values read
as 0. -/
theorem mileage_supplied_fields_authoritative :
    (∀ (name : Str) (rs : List ReceiptData) (m1 m2 : List MileageEntry),
      m1.map mileageProj = m2.map mileageProj →
      ExportReport.buildWorkbook name rs m1 = ExportReport.buildWorkbook name rs m2) ∧
    (∀ (name : Str) (rs : List ReceiptData) (m : List MileageEntry), m ≠ [] →
      (ExportReport.buildWorkbook name rs m).mileageSheet =
        some { rows := m.map ExportReport.renderMileageRow
             , totalMiles := (m.map (fun e => e.reimbursableDistance.getD 0)).sum
             , totalAmount := (m.map (fun e => e.reimbursableAmount.getD 0)).sum }) := by
  constructor
  · intro name rs m1 m2 h
    have hemp : m1.isEmpty = m2.isEmpty := by
      cases m1 <;> cases m2 <;> simp_all
    have hamt : ∀ m : List MileageEntry,
        m.map (fun e => e.reimbursableAmount.getD 0) =
          (m.map mileageProj).map (fun p => p.2.2.2.2.2.getD 0) := by
      intro m
      rw [List.map_map]
      rfl
    have hTot : ExportReport.mileageTotal m1 = ExportReport.mileageTotal m2 := by
      unfold ExportReport.mileageTotal
      rw [hamt m1, hamt m2, h]
    have hdst : ∀ m : List MileageEntry,
        m.map (fun e => e.reimbursableDistance.getD 0) =
          (m.map mileageProj).map (fun p => p.2.2.2.2.1.getD 0) := by
      intro m
      rw [List.map_map]
      rfl
    have hDist : m1.map (fun e => e.reimbursableDistance.getD 0) =
        m2.map (fun e => e.reimbursableDistance.getD 0) := by
      rw [hdst m1, hdst m2, h]
    have hrow : ∀ m : List MileageEntry,
        m.map ExportReport.renderMileageRow =
          (m.map mileageProj).map
            (fun p => [optStrCell p.1, optStrCell p.2.1, optStrCell p.2.2.1,
              optStrCell p.2.2.2.1, optNumCell p.2.2.2.2.1, optNumCell p.2.2.2.2.2]) := by
      intro m
      rw [List.map_map]
      rfl
    have hRows : m1.map ExportReport.renderMileageRow =
        m2.map ExportReport.renderMileageRow := by
      rw [hrow m1, hrow m2, h]
    simp only [ExportReport.buildWorkbook, ExportReport.buildMileageSheet, hemp, hTot,
      hDist, hRows]
  · intro name rs m hm
    have hne : m.isEmpty = false := by simpa using hm
    simp only [ExportReport.buildWorkbook, ExportReport.buildMileageSheet,
      ExportReport.mileageTotal, hne, Bool.false_eq_true, if_false]

/-- C10 (witness): changing `roundTrip`, `calculatedDistance`,
`personalCommute` and `mileage` while keeping the supplied reimbursable
fields fixed leaves the workbook unchanged. -/
theorem mileage_supplied_fields_authoritative_witness :
    ExportReport.buildWorkbook "E".toList [] [mileageRoundTrip] =
      ExportReport.buildWorkbook "E".toList [] [mileageOtherFields] :=
  mileage_supplied_fields_authoritative.1 "E".toList [] [mileageRoundTrip]
    [mileageOtherFields] rfl

/-- C4: with more than 28 receipts, the export route places exactly the
first 28 post-sort receipts in the data rows 10–37 (no padding rows remain),
the call still succeeds, and the `ExcelProcessor` capacity check emits its
capacity warning and truncates the sorted receipts to the first 28. -/
theorem receipts_capacity_cap :
    (∀ (name : Str) (rs : List ReceiptData) (m : List MileageEntry), 28 < rs.length →
      (ExportReport.buildWorkbook name rs m).expenseDataRows =
        ((ExportReport.sortRoute rs).take 28).map ExportReport.renderRow ∧
      (name ≠ [] →
        ExportReport.exportCompleteReport (some name) rs m =
          some (ExportReport.buildWorkbook name rs m))) ∧
    (∀ sorted : List ReceiptData, 28 < sorted.length →
      ExcelProcessor.capReceipts sorted = (sorted.take 28, true)) := by
  constructor
  · intro name rs m h
    have hlen : ((ExportReport.sortRoute rs).take 28).length = 28 := by
      simp only [ExportReport.sortRoute, List.length_take, List.length_insertionSort]
      omega
    constructor
    · simp only [ExportReport.buildWorkbook, hlen]
      simp
    · intro hn
      simp [ExportReport.exportCompleteReport, hn]
  · intro sorted h
    simp [ExcelProcessor.capReceipts, h]

/-- C4 (witness): 29 receipts. -/
theorem receipts_capacity_cap_witness :
    (ExportReport.buildWorkbook "E".toList receipts29 []).expenseDataRows =
      ((ExportReport.sortRoute receipts29).take 28).map ExportReport.renderRow ∧
    ExportReport.exportCompleteReport (some "E".toList) receipts29 [] =
      some (ExportReport.buildWorkbook "E".toList receipts29 []) ∧
    ExcelProcessor.capReceipts (ExportReport.sortRoute receipts29) =
      ((ExportReport.sortRoute receipts29).take 28, true) :=
  ⟨(receipts_capacity_cap.1 "E".toList receipts29 [] (by decide)).1,
   (receipts_capacity_cap.1 "E".toList receipts29 [] (by decide)).2 (by decide),
   receipts_capacity_cap.2 (ExportReport.sortRoute receipts29) (by decide)⟩

/-- C5: `sortReceiptsByDate` returns a permutation of its input that is
sorted ascending by parsed date ordinal with unparsable (`none`) keys after
every parsed key, and it is stable: any sublist of records with pairwise
identical parsed keys (in particular, tied dates, or the unparsable records
among themselves) keeps its relative input order. -/
theorem sortReceiptsByDate_stable_chronological :
    ∀ rs : List ReceiptData,
      (ExcelGenerator.sortReceiptsByDate rs).Perm rs ∧
      List.Pairwise
        (fun a b => keyLE (ExcelGenerator.receiptSortKey a.date)
          (ExcelGenerator.receiptSortKey b.date))
        (ExcelGenerator.sortReceiptsByDate rs) ∧
      (∀ sub : List ReceiptData, List.Sublist sub rs →
        (∀ a ∈ sub, ∀ b ∈ sub,
          ExcelGenerator.receiptSortKey a.date = ExcelGenerator.receiptSortKey b.date) →
        List.Sublist sub (ExcelGenerator.sortReceiptsByDate rs)) := by
  intro rs
  refine ⟨List.perm_insertionSort _ _, ?_, ?_⟩
  · exact List.sorted_insertionSort ExcelGenerator.leGen rs
  · intro sub hsub hk
    apply List.sublist_insertionSort ?_ hsub
    apply List.pairwise_of_forall_mem_list
    intro a ha b hb
    show keyLE _ _
    rw [hk a ha b hb]
    cases ExcelGenerator.receiptSortKey b.date
    · exact trivial
    · exact le_refl _

/-- C5 (witness): the two undated receipts keep their relative order behind
the dated one. -/
theorem sortReceiptsByDate_stable_witness :
    List.Sublist [undatedA, undatedB]
      (ExcelGenerator.sortReceiptsByDate [receiptJan5, undatedA, undatedB]) :=
  (sortReceiptsByDate_stable_chronological [receiptJan5, undatedA, undatedB]).2.2
    [undatedA, undatedB] (List.Sublist.cons receiptJan5 (List.Sublist.refl _)) (by decide)

theorem jadd_assoc (x y z : Option ℚ) : jadd (jadd x y) z = jadd x (jadd y z) := by
  cases x <;> cases y <;> cases z <;> simp [jadd, add_assoc]

theorem jadd_zero_right (x : Option ℚ) : jadd x (some 0) = x := by
  cases x <;> simp [jadd]

theorem foldl_totalsStep_cat :
    ∀ (l : List ReceiptData) (t : (Cat → Option ℚ) × Option ℚ) (c : Cat),
      (l.foldl ExportReport.totalsStep t).1 c = jadd (t.1 c) (catSumJ c l)
  | [], t, c => by simp [catSumJ, jadd_zero_right]
  | r :: l, t, c => by
      rw [List.foldl_cons, foldl_totalsStep_cat l _ c]
      by_cases h : ExportReport.classifyReceipt r = c
      · subst h
        simp only [ExportReport.totalsStep, catSumJ, List.foldr_cons, if_pos]
        rw [jadd_assoc]
      · simp only [ExportReport.totalsStep, catSumJ, List.foldr_cons, if_neg h]
        rw [if_neg (fun hc : c = ExportReport.classifyReceipt r => h hc.symm)]

theorem foldl_totalsStep_grand :
    ∀ (l : List ReceiptData) (t : (Cat → Option ℚ) × Option ℚ),
      (l.foldl ExportReport.totalsStep t).2 = jadd t.2 (amountSumJ l)
  | [], t => by simp [amountSumJ, jadd_zero_right]
  | r :: l, t => by
      rw [List.foldl_cons, foldl_totalsStep_grand l _]
      simp only [ExportReport.totalsStep, amountSumJ, List.foldr_cons]
      rw [jadd_assoc]

theorem catSumQ_cons (c : Cat) (r : ReceiptData) (l : List ReceiptData) :
    catSumQ c (r :: l) =
      if ExportReport.classifyReceipt r = c then amountQ r + catSumQ c l
      else catSumQ c l := by
  by_cases h : ExportReport.classifyReceipt r = c <;>
    simp [catSumQ, List.filter_cons, h]

theorem catSumJ_some (c : Cat) :
    ∀ l : List ReceiptData, (∀ r ∈ l, ExportReport.rowAmount r.total ≠ none) →
      catSumJ c l = some (catSumQ c l)
  | [], _ => by simp [catSumJ, catSumQ]
  | r :: l, h => by
      obtain ⟨q, hq⟩ : ∃ q, ExportReport.rowAmount r.total = some q := by
        cases hr : ExportReport.rowAmount r.total
        · exact absurd hr (h r (List.mem_cons_self r l))
        · exact ⟨_, rfl⟩
      have ih := catSumJ_some c l (fun x hx => h x (List.mem_cons_of_mem r hx))
      rw [catSumQ_cons]
      by_cases hc : ExportReport.classifyReceipt r = c
      · simp only [catSumJ, List.foldr_cons, if_pos hc, hc]
        rw [show List.foldr _ (some 0) l = catSumJ c l from rfl, ih, hq]
        simp [jadd, amountQ, hq]
      · simp only [catSumJ, List.foldr_cons, if_neg hc]
        rw [show List.foldr _ (some 0) l = catSumJ c l from rfl, ih]

theorem amountSumJ_some :
    ∀ l : List ReceiptData, (∀ r ∈ l, ExportReport.rowAmount r.total ≠ none) →
      amountSumJ l = some (amountSumQ l)
  | [], _ => by simp [amountSumJ, amountSumQ]
  | r :: l, h => by
      obtain ⟨q, hq⟩ : ∃ q, ExportReport.rowAmount r.total = some q := by
        cases hr : ExportReport.rowAmount r.total
        · exact absurd hr (h r (List.mem_cons_self r l))
        · exact ⟨_, rfl⟩
      have ih := amountSumJ_some l (fun x hx => h x (List.mem_cons_of_mem r hx))
      simp only [amountSumJ, List.foldr_cons]
      rw [show List.foldr _ (some 0) l = amountSumJ l from rfl, ih, hq]
      simp [jadd, amountSumQ, amountQ, hq]

theorem catSum_delta (c0 : Cat) (x : ℚ) (f : Cat → ℚ) :
    (allCats.map (fun c => if c0 = c then x + f c else f c)).sum =
      x + (allCats.map f).sum := by
  cases c0 <;> simp [allCats] <;> ring

theorem amountSumQ_eq_catSums :
    ∀ l : List ReceiptData, amountSumQ l = (allCats.map (fun c => catSumQ c l)).sum
  | [] => by simp [amountSumQ, catSumQ, allCats]
  | r :: l => by
      have hmap : allCats.map (fun c => catSumQ c (r :: l)) =
          allCats.map (fun c =>
            if ExportReport.classifyReceipt r = c then amountQ r + catSumQ c l
            else catSumQ c l) :=
        List.map_congr_left (fun c _ => catSumQ_cons c r l)
      rw [hmap, catSum_delta, ← amountSumQ_eq_catSums l]
      simp [amountSumQ]

theorem accumTotals_cat (l : List ReceiptData)
    (h : ∀ r ∈ l, ExportReport.rowAmount r.total ≠ none) (c : Cat) :
    (ExportReport.accumTotals l).1 c = some (catSumQ c l) := by
  unfold ExportReport.accumTotals
  rw [foldl_totalsStep_cat, catSumJ_some c l h]
  simp [jadd]

theorem accumTotals_grand (l : List ReceiptData)
    (h : ∀ r ∈ l, ExportReport.rowAmount r.total ≠ none) :
    (ExportReport.accumTotals l).2 = some (amountSumQ l) := by
  unfold ExportReport.accumTotals
  rw [foldl_totalsStep_grand, amountSumJ_some l h]
  simp [jadd]

theorem cellQ_totalCell (q : ℚ) : cellQ (ExportReport.totalCell (some q)) = q := by
  unfold ExportReport.totalCell jfalsy jnumCell
  by_cases h : q = 0
  · simp [h, cellQ]
  · simp [beq_iff_eq, h, cellQ]

theorem renderRow_getD18 (r : ReceiptData) :
    (ExportReport.renderRow r).getD 18 CellValue.blank =
      jnumCell (ExportReport.rowAmount r.total) := rfl

theorem paddingRow_getD18 :
    ExportReport.paddingRow.getD 18 CellValue.blank = CellValue.numv 0 := rfl

theorem catCellSum_explicit (c1 c2 c3 c4 c5 c6 c7 c8 c9 c10 c11 c12 c13 c14 c15 c16 c17
    c18 c19 : CellValue) :
    catCellSum [c1, c2, c3, c4, c5, c6, c7, c8, c9, c10, c11, c12, c13, c14, c15, c16,
      c17, c18, c19] =
      cellQ c7 + (cellQ c8 + (cellQ c9 + (cellQ c10 + (cellQ c11 + (cellQ c12 +
        (cellQ c13 + (cellQ c14 + (cellQ c15 + (cellQ c16 + (cellQ c17 +
        (cellQ c18 + 0))))))))))) := rfl

theorem grandCellQ_explicit (c1 c2 c3 c4 c5 c6 c7 c8 c9 c10 c11 c12 c13 c14 c15 c16 c17
    c18 c19 : CellValue) :
    grandCellQ [c1, c2, c3, c4, c5, c6, c7, c8, c9, c10, c11, c12, c13, c14, c15, c16,
      c17, c18, c19] = cellQ c19 := rfl

/-- C1 (amended): when every placed receipt has a finite parsed amount, the
sum of the twelve category-total cells equals the grand-total cell minus the
gas-category receipt contribution of the placed receipts when at least one
mileage entry is present (and equals the grand-total cell exactly when none
is); the sum of the 28 row-total cells equals the grand-total cell minus the
mileage contribution. -/
theorem totals_row_balance :
    ∀ (name : Str) (rs : List ReceiptData) (m : List MileageEntry),
      (∀ r ∈ (ExportReport.sortRoute rs).take 28, ExportReport.rowAmount r.total ≠ none) →
      catCellSum (ExportReport.buildWorkbook name rs m).totalsRow =
        grandCellQ (ExportReport.buildWorkbook name rs m).totalsRow
          - (if m.isEmpty then 0
             else catSumQ Cat.gas ((ExportReport.sortRoute rs).take 28)) ∧
      rowTotalsSum (ExportReport.buildWorkbook name rs m).expenseDataRows =
        grandCellQ (ExportReport.buildWorkbook name rs m).totalsRow
          - ExportReport.mileageTotal m := by
  intro name rs m h
  constructor
  · simp only [ExportReport.buildWorkbook, catCellSum_explicit, grandCellQ_explicit]
    rw [accumTotals_grand _ h]
    simp only [accumTotals_cat _ h, cellQ_totalCell]
    by_cases hm : m.isEmpty
    · have hm0 : m = [] := List.isEmpty_iff.mp hm
      subst hm0
      simp only [List.isEmpty_nil, if_true, accumTotals_cat _ h, cellQ_totalCell]
      rw [amountSumQ_eq_catSums]
      simp only [ExportReport.mileageTotal, List.map_nil, List.sum_nil, allCats,
        List.map_cons, List.sum_cons, jadd, jnumCell, cellQ]
      ring
    · rw [Bool.not_eq_true] at hm
      simp only [hm, Bool.false_eq_true, if_false, cellQ_totalCell]
      rw [amountSumQ_eq_catSums]
      simp only [allCats, List.map_cons, List.map_nil, List.sum_cons, List.sum_nil,
        jadd, jnumCell, cellQ]
      ring
  · simp only [ExportReport.buildWorkbook, rowTotalsSum, grandCellQ_explicit]
    rw [accumTotals_grand _ h]
    rw [List.map_append, List.sum_append, List.map_map, List.map_replicate]
    have h2 : ((ExportReport.sortRoute rs).take 28).map
        ((fun row => cellQ (row.getD 18 CellValue.blank)) ∘ ExportReport.renderRow) =
        ((ExportReport.sortRoute rs).take 28).map amountQ := by
      refine List.map_congr_left (fun r hr => ?_)
      obtain ⟨q, hq⟩ : ∃ q, ExportReport.rowAmount r.total = some q := by
        cases hx : ExportReport.rowAmount r.total
        · exact absurd hx (h r hr)
        · exact ⟨_, rfl⟩
      show cellQ ((ExportReport.renderRow r).getD 18 CellValue.blank) = amountQ r
      rw [renderRow_getD18, hq]
      simp [jnumCell, cellQ, amountQ, hq]
    rw [h2]
    rw [paddingRow_getD18]
    simp only [cellQ, List.sum_replicate, smul_zero]
    show amountSumQ _ + 0 = _
    simp only [jadd, jnumCell, cellQ]
    ring

/-- C1 (counterexample): with a $10 gas receipt and a $5 mileage entry the
twelve category cells sum to 5 while the grand-total cell holds 15, so the
sum does not equal the grand total minus the mileage contribution: the gas
override discards the gas receipts from the category cells but not from the
grand total, and the gas cell itself carries the mileage total. -/
theorem gasOverride_breaks_totals_balance :
    ¬ (catCellSum (ExportReport.buildWorkbook "E".toList [gasReceipt] [mileage5]).totalsRow =
        grandCellQ (ExportReport.buildWorkbook "E".toList [gasReceipt] [mileage5]).totalsRow
          - ExportReport.mileageTotal [mileage5]) := by
  decide

/-- C1 (witness). -/
theorem totals_row_balance_witness :
    catCellSum (ExportReport.buildWorkbook "E".toList [gasReceipt] [mileage5]).totalsRow =
      grandCellQ (ExportReport.buildWorkbook "E".toList [gasReceipt] [mileage5]).totalsRow
        - (if ([mileage5] : List MileageEntry).isEmpty then 0
           else catSumQ Cat.gas ((ExportReport.sortRoute [gasReceipt]).take 28)) ∧
    rowTotalsSum (ExportReport.buildWorkbook "E".toList [gasReceipt] [mileage5]).expenseDataRows =
      grandCellQ (ExportReport.buildWorkbook "E".toList [gasReceipt] [mileage5]).totalsRow
        - ExportReport.mileageTotal [mileage5] :=
  totals_row_balance "E".toList [gasReceipt] [mileage5] (by decide)

theorem digit_not_ws {c : Char} (h : c.isDigit = true) : isJsWS c = false := by
  cases hw : isJsWS c
  · rfl
  · exfalso
    unfold isJsWS at hw
    simp only [Bool.or_eq_true, beq_iff_eq] at hw
    rcases hw with ((rfl | rfl) | rfl) | rfl <;> exact absurd h (by decide)

theorem sep_not_digit {c : Char} (h : isSep c = true) : c.isDigit = false := by
  unfold isSep at h
  simp only [Bool.or_eq_true, beq_iff_eq] at h
  rcases h with rfl | rfl <;> decide

theorem sep_not_ws {c : Char} (h : isSep c = true) : isJsWS c = false := by
  unfold isSep at h
  simp only [Bool.or_eq_true, beq_iff_eq] at h
  rcases h with rfl | rfl <;> decide

theorem takeWhile_append_head (p : Char → Bool) :
    ∀ (l r : Str), (∀ c ∈ l, p c = true) → (∀ c, r.head? = some c → p c = false) →
      (l ++ r).takeWhile p = l ∧ (l ++ r).dropWhile p = r
  | [], r => by
      intro _ hr
      cases r with
      | nil => exact ⟨rfl, rfl⟩
      | cons c t => simp [List.takeWhile_cons, List.dropWhile_cons, hr c rfl]
  | a :: l, r => by
      intro hl hr
      have ha := hl a (List.mem_cons_self a l)
      have ih := takeWhile_append_head p l r (fun c hc => hl c (List.mem_cons_of_mem _ hc)) hr
      simp [List.takeWhile_cons, List.dropWhile_cons, ha, ih.1, ih.2]

theorem takeWhile_of_all (p : Char → Bool) (l : Str) (h : ∀ c ∈ l, p c = true) :
    l.takeWhile p = l ∧ l.dropWhile p = [] := by
  have := takeWhile_append_head p l [] h (fun c hc => by cases hc)
  simpa using this

theorem dropWhile_eq_self_of (p : Char → Bool) :
    ∀ l : Str, (∀ c t, l = c :: t → p c = false) → l.dropWhile p = l
  | [], _ => rfl
  | c :: t, h => by rw [List.dropWhile_cons, h c t rfl]; simp

theorem jsTrim_eq_self (s : Str) (h : ∀ c ∈ s, isJsWS c = false) : jsTrim s = s := by
  unfold jsTrim
  rw [dropWhile_eq_self_of _ s (fun c t heq => h c (heq ▸ List.mem_cons_self c t))]
  rw [dropWhile_eq_self_of _ s.reverse
    (fun c t heq => h c (List.mem_reverse.mp (heq ▸ List.mem_cons_self c t)))]
  exact List.reverse_reverse s

theorem parseMDY_eval (g1 g2 g3 : Str) (c1 c2 : Char)
    (h1 : g1 ≠ []) (h1l : g1.length ≤ 2) (h1d : ∀ c ∈ g1, c.isDigit = true)
    (h2 : g2 ≠ []) (h2l : g2.length ≤ 2) (h2d : ∀ c ∈ g2, c.isDigit = true)
    (h3a : 2 ≤ g3.length) (h3b : g3.length ≤ 4) (h3d : ∀ c ∈ g3, c.isDigit = true)
    (hs1 : isSep c1 = true) (hs2 : isSep c2 = true) :
    parseMDY (g1 ++ c1 :: (g2 ++ c2 :: g3)) =
      some (digitsVal g1, digitsVal g2, digitsVal g3) := by
  have e1 := takeWhile_append_head Char.isDigit g1 (c1 :: (g2 ++ c2 :: g3)) h1d
    (fun c hc => by injection hc with hc; subst hc; exact sep_not_digit hs1)
  have e2 := takeWhile_append_head Char.isDigit g2 (c2 :: g3) h2d
    (fun c hc => by injection hc with hc; subst hc; exact sep_not_digit hs2)
  have e3 := takeWhile_of_all Char.isDigit g3 h3d
  have hl1 : 1 ≤ g1.length := List.length_pos.mpr h1
  have hl2 : 1 ≤ g2.length := List.length_pos.mpr h2
  unfold parseMDY
  rw [e1.1, e1.2, if_pos ⟨hl1, h1l⟩]
  simp only [hs1, if_true]
  rw [e2.1, e2.2, if_pos ⟨hl2, h2l⟩]
  simp only [hs2, if_true]
  rw [e3.1, e3.2, if_pos ⟨h3a, h3b, rfl⟩]

theorem parseISODate_eval (g1 g2 g3 rest : Str)
    (h1 : g1.length = 4) (h1d : ∀ c ∈ g1, c.isDigit = true)
    (h2 : g2 ≠ []) (h2l : g2.length ≤ 2) (h2d : ∀ c ∈ g2, c.isDigit = true)
    (h3 : g3 ≠ []) (h3d : ∀ c ∈ g3, c.isDigit = true)
    (hrest : ∀ c, rest.head? = some c → c.isDigit = false) :
    parseISODate (g1 ++ '-' :: (g2 ++ '-' :: (g3 ++ rest))) =
      some (digitsVal g1, digitsVal g2, digitsVal (g3.take 2)) := by
  have e1 := takeWhile_append_head Char.isDigit g1 ('-' :: (g2 ++ '-' :: (g3 ++ rest))) h1d
    (fun c hc => by injection hc with hc; subst hc; decide)
  have e2 := takeWhile_append_head Char.isDigit g2 ('-' :: (g3 ++ rest)) h2d
    (fun c hc => by injection hc with hc; subst hc; decide)
  have e3 := takeWhile_append_head Char.isDigit g3 rest h3d hrest
  have hl2 : 1 ≤ g2.length := List.length_pos.mpr h2
  have hl3 : 1 ≤ g3.length := List.length_pos.mpr h3
  unfold parseISODate
  rw [e1.1, e1.2, if_pos h1]
  dsimp only
  rw [if_pos rfl, e2.1, e2.2, if_pos ⟨hl2, h2l⟩]
  dsimp only
  rw [if_pos rfl, e3.1, if_pos hl3]

theorem parseReceiptDate_eval_MDY (g1 g2 g3 : Str) (c1 c2 : Char)
    (h1 : g1 ≠ []) (h1l : g1.length ≤ 2) (h1d : ∀ c ∈ g1, c.isDigit = true)
    (h2 : g2 ≠ []) (h2l : g2.length ≤ 2) (h2d : ∀ c ∈ g2, c.isDigit = true)
    (h3a : 2 ≤ g3.length) (h3b : g3.length ≤ 4) (h3d : ∀ c ∈ g3, c.isDigit = true)
    (hs1 : isSep c1 = true) (hs2 : isSep c2 = true) :
    ExcelGenerator.parseReceiptDate (g1 ++ c1 :: (g2 ++ c2 :: g3)) =
      (if 1 ≤ digitsVal g1 ∧ digitsVal g1 ≤ 12 ∧ 1 ≤ digitsVal g2 ∧ digitsVal g2 ≤ 31 ∧
          1900 ≤ (if digitsVal g3 < 100 then 2000 + digitsVal g3 else digitsVal g3) ∧
          (if digitsVal g3 < 100 then 2000 + digitsVal g3 else digitsVal g3) ≤ 2100 then
        some ⟨if digitsVal g3 < 100 then 2000 + digitsVal g3 else digitsVal g3,
              digitsVal g1, digitsVal g2,
              (if digitsVal g3 < 100 then 2000 + digitsVal g3 else digitsVal g3) * 10000 +
                digitsVal g1 * 100 + digitsVal g2⟩
      else none) := by
  have hne : g1 ++ c1 :: (g2 ++ c2 :: g3) ≠ [] := by
    cases g1 with
    | nil => exact absurd rfl h1
    | cons a t => simp
  have hws : ∀ c ∈ g1 ++ c1 :: (g2 ++ c2 :: g3), isJsWS c = false := by
    intro c hc
    rcases List.mem_append.mp hc with hc1 | hc2
    · exact digit_not_ws (h1d c hc1)
    · rcases List.mem_cons.mp hc2 with rfl | hc3
      · exact sep_not_ws hs1
      · rcases List.mem_append.mp hc3 with hc4 | hc5
        · exact digit_not_ws (h2d c hc4)
        · rcases List.mem_cons.mp hc5 with rfl | hc6
          · exact sep_not_ws hs2
          · exact digit_not_ws (h3d c hc6)
  unfold ExcelGenerator.parseReceiptDate
  rw [if_neg hne, jsTrim_eq_self _ hws]
  dsimp only
  rw [parseMDY_eval g1 g2 g3 c1 c2 h1 h1l h1d h2 h2l h2d h3a h3b h3d hs1 hs2]
  dsimp only
  have e1 := takeWhile_append_head Char.isDigit g1 (c1 :: (g2 ++ c2 :: g3)) h1d
    (fun c hc => by injection hc with hc; subst hc; exact sep_not_digit hs1)
  have hiso : parseISODate (g1 ++ c1 :: (g2 ++ c2 :: g3)) = none := by
    unfold parseISODate
    rw [e1.1, if_neg (by omega)]
  split_ifs <;> simp only [hiso]

theorem parseReceiptDate_eval_ISO (g1 g2 g3 rest : Str)
    (h1 : g1.length = 4) (h1d : ∀ c ∈ g1, c.isDigit = true)
    (h2 : g2 ≠ []) (h2l : g2.length ≤ 2) (h2d : ∀ c ∈ g2, c.isDigit = true)
    (h3 : g3 ≠ []) (h3d : ∀ c ∈ g3, c.isDigit = true)
    (hrest : ∀ c ∈ rest, c.isDigit = false ∧ isJsWS c = false) :
    ExcelGenerator.parseReceiptDate (g1 ++ '-' :: (g2 ++ '-' :: (g3 ++ rest))) =
      (if 1 ≤ digitsVal g2 ∧ digitsVal g2 ≤ 12 ∧ 1 ≤ digitsVal (g3.take 2) ∧
          digitsVal (g3.take 2) ≤ 31 ∧ 1900 ≤ digitsVal g1 ∧ digitsVal g1 ≤ 2100 then
        some ⟨digitsVal g1, digitsVal g2, digitsVal (g3.take 2),
              digitsVal g1 * 10000 + digitsVal g2 * 100 + digitsVal (g3.take 2)⟩
      else none) := by
  have h1ne : g1 ≠ [] := by
    intro he
    rw [he] at h1
    exact absurd h1 (by decide)
  have hne : g1 ++ '-' :: (g2 ++ '-' :: (g3 ++ rest)) ≠ [] := by
    cases g1 with
    | nil => exact absurd rfl h1ne
    | cons a t => simp
  have hws : ∀ c ∈ g1 ++ '-' :: (g2 ++ '-' :: (g3 ++ rest)), isJsWS c = false := by
    intro c hc
    rcases List.mem_append.mp hc with hc1 | hc2
    · exact digit_not_ws (h1d c hc1)
    · rcases List.mem_cons.mp hc2 with rfl | hc3
      · decide
      · rcases List.mem_append.mp hc3 with hc4 | hc5
        · exact digit_not_ws (h2d c hc4)
        · rcases List.mem_cons.mp hc5 with rfl | hc6
          · decide
          · rcases List.mem_append.mp hc6 with hc7 | hc8
            · exact digit_not_ws (h3d c hc7)
            · exact (hrest c hc8).2
  have e1 := takeWhile_append_head Char.isDigit g1 ('-' :: (g2 ++ '-' :: (g3 ++ rest))) h1d
    (fun c hc => by injection hc with hc; subst hc; decide)
  have hmdy : parseMDY (g1 ++ '-' :: (g2 ++ '-' :: (g3 ++ rest))) = none := by
    unfold parseMDY
    rw [e1.1, if_neg (by omega)]
  have hrhead : ∀ c, rest.head? = some c → c.isDigit = false := by
    intro c hc
    cases rest with
    | nil => cases hc
    | cons a t =>
        injection hc with hc
        subst hc
        exact (hrest _ (List.mem_cons_self _ _)).1
  unfold ExcelGenerator.parseReceiptDate
  rw [if_neg hne, jsTrim_eq_self _ hws]
  dsimp only
  rw [hmdy]
  dsimp only
  rw [parseISODate_eval g1 g2 g3 rest h1 h1d h2 h2l h2d h3 h3d hrhead]

theorem parseReceiptDate_sound (s : Str) (p : ExcelGenerator.ParsedDate)
    (h : ExcelGenerator.parseReceiptDate s = some p) :
    p.sortValue = p.year * 10000 + p.month * 100 + p.day ∧
    1 ≤ p.month ∧ p.month ≤ 12 ∧ 1 ≤ p.day ∧ p.day ≤ 31 ∧
    1900 ≤ p.year ∧ p.year ≤ 2100 := by
  unfold ExcelGenerator.parseReceiptDate at h
  split at h
  · exact absurd h (by simp)
  · dsimp only at h
    cases hm : parseMDY (jsTrim s) with
    | some v =>
        obtain ⟨m, d, yR⟩ := v
        rw [hm] at h
        dsimp only at h
        by_cases hv : 1 ≤ m ∧ m ≤ 12 ∧ 1 ≤ d ∧ d ≤ 31 ∧
            1900 ≤ (if yR < 100 then 2000 + yR else yR) ∧
            (if yR < 100 then 2000 + yR else yR) ≤ 2100
        · rw [if_pos hv] at h
          injection h with h
          subst h
          exact ⟨rfl, hv.1, hv.2.1, hv.2.2.1, hv.2.2.2.1, hv.2.2.2.2.1, hv.2.2.2.2.2⟩
        · rw [if_neg hv] at h
          dsimp only at h
          cases hiso : parseISODate (jsTrim s) with
          | some w =>
              obtain ⟨y2, m2, d2⟩ := w
              rw [hiso] at h
              dsimp only at h
              by_cases hv2 : 1 ≤ m2 ∧ m2 ≤ 12 ∧ 1 ≤ d2 ∧ d2 ≤ 31 ∧ 1900 ≤ y2 ∧ y2 ≤ 2100
              · rw [if_pos hv2] at h
                injection h with h
                subst h
                exact ⟨rfl, hv2.1, hv2.2.1, hv2.2.2.1, hv2.2.2.2.1, hv2.2.2.2.2.1,
                  hv2.2.2.2.2.2⟩
              · rw [if_neg hv2] at h
                exact absurd h (by simp)
          | none =>
              rw [hiso] at h
              exact absurd h (by simp)
    | none =>
        rw [hm] at h
        dsimp only at h
        cases hiso : parseISODate (jsTrim s) with
        | some w =>
            obtain ⟨y2, m2, d2⟩ := w
            rw [hiso] at h
            dsimp only at h
            by_cases hv2 : 1 ≤ m2 ∧ m2 ≤ 12 ∧ 1 ≤ d2 ∧ d2 ≤ 31 ∧ 1900 ≤ y2 ∧ y2 ≤ 2100
            · rw [if_pos hv2] at h
              injection h with h
              subst h
              exact ⟨rfl, hv2.1, hv2.2.1, hv2.2.2.1, hv2.2.2.2.1, hv2.2.2.2.2.1,
                hv2.2.2.2.2.2⟩
            · rw [if_neg hv2] at h
              exact absurd h (by simp)
        | none =>
            rw [hiso] at h
            exact absurd h (by simp)

/-- C7: `parseReceiptDate` is a total function (never throws); every
successful parse satisfies month 1–12, day 1–31, year 1900–2100 and carries
the comparable key `year*10000 + month*100 + day`; strings of the
`M/D/YY`-family shapes (1–2 digit month and day, 2–4 digit year, separators
`/` or `-`, two-digit years mapped to `2000 + yy`) parse exactly when the
ranges are valid, and so do ISO `YYYY-MM-DD` prefixes; everything else
returns `null`. -/
theorem parseReceiptDate_spec :
    (∀ (s : Str) (p : ExcelGenerator.ParsedDate),
      ExcelGenerator.parseReceiptDate s = some p →
      p.sortValue = p.year * 10000 + p.month * 100 + p.day ∧
      1 ≤ p.month ∧ p.month ≤ 12 ∧ 1 ≤ p.day ∧ p.day ≤ 31 ∧
      1900 ≤ p.year ∧ p.year ≤ 2100) ∧
    (∀ (g1 g2 g3 : Str) (c1 c2 : Char),
      g1 ≠ [] → g1.length ≤ 2 → (∀ c ∈ g1, c.isDigit = true) →
      g2 ≠ [] → g2.length ≤ 2 → (∀ c ∈ g2, c.isDigit = true) →
      2 ≤ g3.length → g3.length ≤ 4 → (∀ c ∈ g3, c.isDigit = true) →
      isSep c1 = true → isSep c2 = true →
      ExcelGenerator.parseReceiptDate (g1 ++ c1 :: (g2 ++ c2 :: g3)) =
        (if 1 ≤ digitsVal g1 ∧ digitsVal g1 ≤ 12 ∧ 1 ≤ digitsVal g2 ∧ digitsVal g2 ≤ 31 ∧
            1900 ≤ (if digitsVal g3 < 100 then 2000 + digitsVal g3 else digitsVal g3) ∧
            (if digitsVal g3 < 100 then 2000 + digitsVal g3 else digitsVal g3) ≤ 2100 then
          some ⟨if digitsVal g3 < 100 then 2000 + digitsVal g3 else digitsVal g3,
                digitsVal g1, digitsVal g2,
                (if digitsVal g3 < 100 then 2000 + digitsVal g3 else digitsVal g3) * 10000 +
                  digitsVal g1 * 100 + digitsVal g2⟩
        else none)) ∧
    (∀ (g1 g2 g3 rest : Str),
      g1.length = 4 → (∀ c ∈ g1, c.isDigit = true) →
      g2 ≠ [] → g2.length ≤ 2 → (∀ c ∈ g2, c.isDigit = true) →
      g3 ≠ [] → (∀ c ∈ g3, c.isDigit = true) →
      (∀ c ∈ rest, c.isDigit = false ∧ isJsWS c = false) →
      ExcelGenerator.parseReceiptDate (g1 ++ '-' :: (g2 ++ '-' :: (g3 ++ rest))) =
        (if 1 ≤ digitsVal g2 ∧ digitsVal g2 ≤ 12 ∧ 1 ≤ digitsVal (g3.take 2) ∧
            digitsVal (g3.take 2) ≤ 31 ∧ 1900 ≤ digitsVal g1 ∧ digitsVal g1 ≤ 2100 then
          some ⟨digitsVal g1, digitsVal g2, digitsVal (g3.take 2),
                digitsVal g1 * 10000 + digitsVal g2 * 100 + digitsVal (g3.take 2)⟩
        else none)) :=
  ⟨parseReceiptDate_sound, parseReceiptDate_eval_MDY, parseReceiptDate_eval_ISO⟩

/-- C7 (witness). -/
theorem parseReceiptDate_spec_witness :
    ExcelGenerator.parseReceiptDate "1/5/24".toList = some ⟨2024, 1, 5, 20240105⟩ := by
  have h := parseReceiptDate_spec.2.1 ['1'] ['5'] ['2', '4'] '/' '/'
    (by decide) (by decide) (by decide) (by decide) (by decide) (by decide)
    (by decide) (by decide) (by decide) (by decide) (by decide)
  exact h.trans (by decide)
